import Mathlib

/-!
Verification of the lam-phuong-api tabular-store adapter and auth subsystem.

This file shallowly embeds the Go code of the `lam-phuong-api` repository
(slug uniqueness, entity repositories with an Airtable mirror, the in-memory
fallback stores, the Airtable field mapping, and the JWT-based auth
subsystem) as executable Lean definitions, and proves or refutes the
specification's claims about them.

Conventions:
- Go strings are Lean `String`; Go `map[string]T` literals consulted by key
  are association lists with `find?` lookup.
- External collaborators (the Airtable HTTP transport, the bcrypt library,
  the JWT signing primitive, the gosimple slug library) are modelled by
  their documented contracts; each such model carries a doc comment saying
  what it stands for.
- Fallible Go functions returning `(T, error)` become `Except String T`.
-/

namespace LamPhuong

/-! ## Decimal rendering of naturals

Models Go's `strconv.Itoa` / `fmt.Sprintf("%d", i)`: the usual base-10
rendering of a natural number.  A round-trip parser is proved correct so
that rendering is injective, which the slug-suffix termination argument
needs. -/

/-- Little-endian decimal digits of `n`, driven by explicit fuel (the Go
runtime prints digits by repeated division; `fuel ≥ n` suffices). -/
def decDigitsAux : Nat → Nat → List Nat
  | 0, _ => []
  | _ + 1, 0 => []
  | fuel + 1, n + 1 => (n + 1) % 10 :: decDigitsAux fuel ((n + 1) / 10)

/-- Little-endian decimal digits of `n`. -/
def decDigits (n : Nat) : List Nat := decDigitsAux n n

/-- Value of a little-endian digit list. -/
def digitsVal (ds : List Nat) : Nat := ds.foldr (fun d acc => d + 10 * acc) 0

/-- Digit-to-character map for decimal digits (models the runtime's digit
printing). -/
def digitCh (d : Nat) : Char :=
  Char.ofNat (48 + d)

/-- Character-to-digit map, inverse of `digitCh` on decimal digits. -/
def chDigit (c : Char) : Nat := c.toNat - 48

/-- Decimal string rendering of a natural number: models Go's
`strconv.Itoa` and `fmt.Sprintf` with the `%d` verb. -/
def natStr (n : Nat) : List Char :=
  if n = 0 then ['0'] else ((decDigits n).map digitCh).reverse

/-- Parse a big-endian decimal character list back to a natural number. -/
def natParse (cs : List Char) : Nat := digitsVal (cs.reverse.map chDigit)

/-! ## Slug uniqueness
(`ensureUniqueSlug` in src/internal/jobType/handler.go, identically in
src/internal/jobCategory/helpers.go and src/unnamed/part_012.) -/

/-- Candidate slug `base-i`: the Go code's `fmt.Sprintf("%s-%d", baseSlug, i)`. -/
def slugCandidate (base : String) (i : Nat) : String :=
  base ++ "-" ++ String.mk (natStr i)

/-- The suffix-search loop of `ensureUniqueSlug` (`for i := 1; ; i++` in Go),
with explicit fuel.  `slugLoop_isSome` below proves that fuel
`existing.length + 1` always suffices, so the fuelled embedding is as total
as the Go loop. -/
def slugLoop (existing : List String) (base : String) : Nat → Nat → Option String
  | _, 0 => none
  | i, fuel + 1 =>
    if slugCandidate base i ∈ existing then slugLoop existing base (i + 1) fuel
    else some (slugCandidate base i)

/-- `ensureUniqueSlug`: empty base slugs fall back to the entity's default
slug; a non-colliding base is returned unchanged; otherwise numeric suffixes
`-1`, `-2`, … are tried in order until one is free. -/
def ensureUniqueSlug (defaultSlug : String) (existing : List String)
    (baseSlug : String) : String :=
  let base := if baseSlug = "" then defaultSlug else baseSlug
  if base ∈ existing then
    (slugLoop existing base 1 (existing.length + 1)).getD base
  else base

/-! ## Entity creation and slug handling
(src/internal/jobType/handler.go `CreateJobType`,
src/internal/location/handler.go `CreateLocation` — the variant cited by
the spec, which passes an explicit slug through unchanged.) -/

/-- Models the gosimple `slug.Make` library function on plain ASCII input:
lowercases letters and replaces spaces with hyphens.  (The real library
additionally transliterates and strips exotic characters; on the latin
words-and-spaces inputs of this development this model is exact.) -/
def slugMake (s : String) : String :=
  String.mk (s.data.map (fun c => if c = ' ' then '-' else c.toLower))

/-- JobType (src/unnamed/part_023). -/
structure JobType where
  id : String
  name : String
  slug : String
deriving DecidableEq

/-- jobTypePayload (src/internal/jobType/handler.go): required name,
optional slug. -/
structure JobTypePayload where
  name : String
  slug : String
deriving DecidableEq

/-- `CreateJobType` (src/internal/jobType/handler.go, lines 59-91): the slug
computation and the entity handed to `repo.Create`.  `existing` stands for
the result of `repo.List()` consulted by `ensureUniqueSlug`; the
repositories' `Create` only assigns the ID, so the created entity's slug is
the one computed here. -/
def createJobType (existing : List JobType) (payload : JobTypePayload) :
    JobType :=
  let jobTypeSlug :=
    if payload.slug ≠ "" then slugMake payload.slug else slugMake payload.name
  let jobTypeSlug :=
    ensureUniqueSlug "job-type" (existing.map JobType.slug) jobTypeSlug
  { id := "", name := payload.name, slug := jobTypeSlug }

/-- Location status constant (src/internal/location/model.go). -/
def StatusActive : String := "Active"

/-- Location status constant (src/internal/location/model.go). -/
def StatusDisabled : String := "Disabled"

/-- `Status.IsValid` (src/internal/location/model.go). -/
def statusIsValid (s : String) : Bool :=
  s == StatusActive || s == StatusDisabled

/-- Location (src/internal/location/model.go); `Status` is a string type in
the source. -/
structure Location where
  id : String
  name : String
  slug : String
  status : String
deriving DecidableEq

/-- locationPayload (src/internal/location/handler.go). -/
structure LocationPayload where
  name : String
  slug : String
  status : String
deriving DecidableEq

/-- `CreateLocation` (src/internal/location/handler.go, lines 46-83): an
explicit slug is used as-is (no normalization and no uniqueness scan in this
handler variant); an empty slug is generated from the name; status defaults
to Active and invalid statuses are rejected with a 400 error.  Returns the
entity handed to `repo.Create`, whose only effect on the entity is assigning
the ID. -/
def createLocation (payload : LocationPayload) : Except String Location :=
  let locationSlug :=
    if payload.slug = "" then slugMake payload.name else payload.slug
  if payload.status = "" then
    .ok { id := "", name := payload.name, slug := locationSlug,
          status := StatusActive }
  else if statusIsValid payload.status then
    .ok { id := "", name := payload.name, slug := locationSlug,
          status := payload.status }
  else .error "invalid status. must be Active or Disabled"

/-! ## Airtable records, field mapping and the location repositories
(src/internal/airtable wire shape, src/internal/location/model.go,
src/internal/location/repository.go, src/unnamed/part_013,
src/unnamed/part_019.) -/

/-- A scalar Airtable field value (the `interface{}` in
`map[string]interface{}`): a string, or some non-string scalar. -/
inductive FieldVal where
  | str (s : String)
  | num (n : Int)
  | boolean (b : Bool)
  | null
deriving DecidableEq

/-- An Airtable record as the Remote Table Client returns it:
`{id, fields}`. -/
structure ARecord where
  id : String
  fields : List (String × FieldVal)
deriving DecidableEq

/-- `getStringField` (src/internal/location/model.go): key present and a
string → its value; otherwise the zero string. -/
def getStringField (fields : List (String × FieldVal)) (key : String) :
    String :=
  match fields.find? (fun kv => kv.1 == key) with
  | some (_, .str s) => s
  | _ => ""

/-- Airtable field name (src/internal/location/model.go). -/
def FieldName : String := "Name"

/-- Airtable field name (src/internal/location/model.go). -/
def FieldSlug : String := "Slug"

/-- Airtable field name (src/internal/location/model.go). -/
def FieldStatus : String := "Status"

/-- `mapAirtableRecord` (src/internal/location/repository.go): maps ID, Name
and Slug, leaves Status at its zero value, and never returns an error. -/
def mapAirtableRecord (record : ARecord) : Except String Location :=
  .ok { id := record.id, name := getStringField record.fields FieldName,
        slug := getStringField record.fields FieldSlug, status := "" }

/-- Outcome of the Remote Table Client's ListRecords call: the transport
either fails or yields records. -/
abbrev RemoteList := Except String (List ARecord)

/-- `(*AirtableRepository).List`, remote-only variant (src/unnamed/part_013,
lines 37-55): a transport error degrades to the empty slice; a record whose
mapping errors is skipped. -/
def remoteOnlyList (remote : RemoteList) : List Location :=
  match remote with
  | .error _ => []
  | .ok records => records.filterMap (fun r => (mapAirtableRecord r).toOption)

/-- `(*AirtableRepository).List`, fallback-mirroring variant
(src/internal/location/repository.go, lines 116-139): a transport error —
and likewise an empty mapped result — degrades to the wrapped repository's
List(), which `localList` stands for. -/
def mirroredList (remote : RemoteList) (localList : List Location) :
    List Location :=
  match remote with
  | .error _ => localList
  | .ok records =>
    let locations := records.filterMap (fun r => (mapAirtableRecord r).toOption)
    if locations.length = 0 then localList else locations

/-- State of the locations' In-Memory Fallback Store
(src/internal/location/repository.go): insertion-ordered id→entity map plus
the next-ID counter. -/
structure LocInMemState where
  data : List (String × Location)
  nextID : Nat
deriving DecidableEq

/-- `(*InMemoryRepository).Create` for locations
(src/internal/location/repository.go, lines 67-76): assigns
`id = strconv.Itoa(nextID)`, increments the counter, inserts; no duplicate
check, never an error. -/
def locInMemCreate (st : LocInMemState) (l : Location) :
    LocInMemState × Location :=
  let created := { l with id := String.mk (natStr st.nextID) }
  ({ data := st.data ++ [(created.id, created)], nextID := st.nextID + 1 },
    created)

/-- `(*AirtableRepository).Create`, mirroring variant
(src/internal/location/repository.go, lines 142-164): local create first;
on remote failure the local write is kept and a nil error returned; on
remote success the returned entity's ID becomes the remote ID.  `remote`
stands for the airtableClient.CreateRecord outcome. -/
def locMirroredCreate (st : LocInMemState) (l : Location)
    (remote : Except String ARecord) : LocInMemState × Except String Location :=
  let result := locInMemCreate st l
  match remote with
  | .error _ => (result.1, .ok result.2)
  | .ok record => (result.1, .ok { result.2 with id := record.id })

/-- `getStatusFromFields` (src/internal/location/model.go): empty status
defaults to Active, invalid statuses are an error. -/
def getStatusFromFields (fields : List (String × FieldVal)) :
    Except String String :=
  let statusStr := getStringField fields FieldStatus
  if statusStr = "" then .ok StatusActive
  else if statusIsValid statusStr then .ok statusStr
  else .error ("invalid status: " ++ statusStr ++ " (must be Active or Disabled)")

/-- `(*Location).ToAirtableFields` (src/internal/location/model.go, lines
72-78): the write mapping. -/
def toAirtableFields (l : Location) : List (String × FieldVal) :=
  [(FieldName, .str l.name), (FieldSlug, .str l.slug),
   (FieldStatus, .str l.status)]

/-- The top-level values of the generic record taken by `FromAirtable`:
`record["id"]` should be a string and `record["fields"]` a field map. -/
inductive RVal where
  | str (s : String)
  | fieldsObj (m : List (String × FieldVal))
  | other
deriving DecidableEq

/-- `FromAirtable` (src/internal/location/model.go, lines 82-109): the read
mapping; tolerates a missing/mistyped id (zero value) but rejects a
missing/mistyped fields map and an invalid status. -/
def fromAirtable (record : List (String × RVal)) : Except String Location :=
  let id := match record.find? (fun kv => kv.1 == "id") with
    | some (_, .str s) => s
    | _ => ""
  match record.find? (fun kv => kv.1 == "fields") with
  | some (_, .fieldsObj fields) =>
    match getStatusFromFields fields with
    | .error e => .error e
    | .ok status =>
      .ok { id := id, name := getStringField fields FieldName,
            slug := getStringField fields FieldSlug, status := status }
  | _ => .error "invalid record: missing or invalid fields"

/-! ## Users, the in-memory user store and the auth subsystem
(src/unnamed/part_017, part_019, part_020, src/internal/user/handler.go,
src/internal/user/authorization.go.) -/

/-- User role constant (src/unnamed/part_017). -/
def RoleSuperAdmin : String := "Super Admin"

/-- User role constant (src/unnamed/part_017). -/
def RoleAdmin : String := "Admin"

/-- User role constant (src/unnamed/part_017). -/
def RoleUser : String := "User"

/-- Modelled from the spec: the user account status enumeration
(`Pending`, `Active`, `Disabled`).  The constants `StatusPending`,
`StatusActive`, `StatusDisabled` are referenced by
src/internal/user/handler.go and src/unnamed/part_020 but their defining
file is not among the provided sources. -/
inductive UserStatus where
  | pending
  | active
  | disabled
deriving DecidableEq

/-- User (fields per their use in src/internal/user/handler.go and
src/unnamed/part_020; src/unnamed/part_017 holds an earlier revision
without status and verification token). -/
structure User where
  id : String
  email : String
  password : String
  role : String
  status : UserStatus
  emailVerificationToken : String
deriving DecidableEq

/-- State of the users' In-Memory Fallback Store (src/unnamed/part_019). -/
structure UserInMemState where
  data : List (String × User)
  nextID : Nat
deriving DecidableEq

/-- `(*InMemoryRepository).Create` for users (src/unnamed/part_019, lines
65-81): unlike the locations' variant it scans for a duplicate email first
and returns an error on a hit; otherwise assigns `id = strconv.Itoa(nextID)`,
increments the counter and inserts. -/
def userInMemCreate (st : UserInMemState) (u : User) :
    Except String (UserInMemState × User) :=
  if st.data.any (fun kv => kv.2.email == u.email) then
    .error ("user with email " ++ u.email ++ " already exists")
  else
    let created := { u with id := String.mk (natStr st.nextID) }
    .ok ({ data := st.data ++ [(created.id, created)],
           nextID := st.nextID + 1 }, created)

/-- `(*AirtableRepository).Create` for users, mirroring variant
(src/unnamed/part_019, lines 153-175): a local failure is returned as-is;
after a local success a remote failure is swallowed and the local entity
returned with a nil error. -/
def userMirroredCreate (st : UserInMemState) (u : User)
    (remote : Except String ARecord) :
    UserInMemState × Except String User :=
  match userInMemCreate st u with
  | .error e => (st, .error e)
  | .ok (st2, created) =>
    match remote with
    | .error _ => (st2, .ok created)
    | .ok record => (st2, .ok { created with id := record.id })

/-- `GetByEmail` over the repository contents (src/unnamed/part_019, lines
96-108): first user carrying the email, if any. -/
def getByEmail (users : List User) (email : String) : Option User :=
  users.find? (fun u => u.email == email)

/-- Modelled from the spec: repository `GetByVerificationToken`, called by
`VerifyEmailHandler` (src/internal/user/handler.go) but not defined among
the provided sources — finds the user holding the one-time verification
token. -/
def getByVerificationToken (users : List User) (token : String) :
    Option User :=
  users.find? (fun u => u.emailVerificationToken == token)

/-- Modelled from the spec: repository `Update(id, user)`, called by
`VerifyEmailHandler` (src/internal/user/handler.go) but not defined among
the provided sources — replaces the record with the given id, an error if
no such record exists. -/
def updateUser (users : List User) (id : String) (u : User) :
    Except String (List User) :=
  if users.any (fun v => v.id == id) then
    .ok (users.map (fun v => if v.id == id then u else v))
  else .error "user not found"

/-- Models the bcrypt library contract behind `HashPassword`
(src/unnamed/part_017): an injective one-way tag.  `CheckPassword` succeeds
exactly on the password the hash came from, which is all the code relies
on. -/
def hashPassword (password : String) : String := "bcrypt$" ++ password

/-- `CheckPassword` (src/unnamed/part_017) under the bcrypt model above. -/
def checkPassword (hashedPassword password : String) : Bool :=
  hashedPassword == hashPassword password

/-- JWT claims (src/unnamed/part_017): identity plus issue/expiry times. -/
structure Claims where
  userID : String
  email : String
  role : String
  issuedAt : Int
  expiresAt : Int
deriving DecidableEq

/-- A signed token under an ideal-MAC model of HMAC-SHA256: the signature
records exactly which secret and payload produced it, so verification
succeeds precisely for that secret and payload. -/
structure SignedToken where
  claims : Claims
  sigSecret : String
  sigClaims : Claims
deriving DecidableEq

/-- `GenerateToken` (src/unnamed/part_017, lines 114-133): an empty role
defaults to User; expiry is issue time plus the configured duration. -/
def generateToken (u : User) (secretKey : String) (now expiresIn : Int) :
    SignedToken :=
  let role := if u.role = "" then RoleUser else u.role
  let claims : Claims :=
    { userID := u.id, email := u.email, role := role,
      issuedAt := now, expiresAt := now + expiresIn }
  { claims := claims, sigSecret := secretKey, sigClaims := claims }

/-- `ValidateToken` (src/unnamed/part_017, lines 136-151) composed with the
jwt library's verification contract: a signature that does not match the
supplied secret fails with the library's signature error; with a matching
signature, an expired token (now past expiresAt) fails with the library's
expiry error. -/
def validateToken (tok : SignedToken) (secretKey : String) (now : Int) :
    Except String Claims :=
  if tok.sigSecret ≠ secretKey ∨ tok.sigClaims ≠ tok.claims then
    .error "token signature is invalid: signature is invalid"
  else if tok.claims.expiresAt < now then
    .error "token has invalid claims: token is expired"
  else .ok tok.claims

/-- `hasPrefixChars sub s`: `sub` is a prefix of `s` (character lists). -/
def hasPrefixChars : List Char → List Char → Bool
  | [], _ => true
  | _ :: _, [] => false
  | a :: as, b :: bs => a == b && hasPrefixChars as bs

/-- `containsChars s sub`: `sub` occurs inside `s` (character lists). -/
def containsChars : List Char → List Char → Bool
  | [], sub => sub.isEmpty
  | c :: t, sub => hasPrefixChars sub (c :: t) || containsChars t sub

/-- Models Go `strings.Contains`. -/
def strContains (s sub : String) : Bool := containsChars s.data sub.data

/-- Models Go `strings.ToLower` on ASCII input: lowercases every
character. -/
def strToLower (s : String) : String := String.mk (s.data.map Char.toLower)

/-- Error code constant (src/internal/response/response.go). -/
def ErrCodeInvalidToken : String := "INVALID_TOKEN"

/-- Error code constant (src/internal/response/response.go). -/
def ErrCodeExpiredToken : String := "EXPIRED_TOKEN"

/-- The error-classification step of `AuthMiddleware` (src/unnamed/part_020,
lines 36-42): a lowercased message containing `expired` or `exp` maps to
the EXPIRED_TOKEN response, anything else to INVALID_TOKEN. -/
def classifyTokenError (errMsg : String) : String :=
  let m := strToLower errMsg
  if strContains m "expired" || strContains m "exp" then ErrCodeExpiredToken
  else ErrCodeInvalidToken

/-- Outcome of the auth middleware: an aborted request with an HTTP status
and error code, or a request proceeding with identity injected into the
context. -/
inductive AuthOutcome where
  | abort (status : Nat) (code : String)
  | proceed (userID email role : String)
deriving DecidableEq

/-- `AuthMiddleware` (src/unnamed/part_020, lines 13-54) from the point
where the bearer token string has been taken out of the Authorization
header (the missing-header and malformed-header short circuits are not
involved in any claim): validation failure aborts with 401 and the
classified error code; success injects the claims. -/
def authMiddleware (tok : SignedToken) (jwtSecret : String) (now : Int) :
    AuthOutcome :=
  match validateToken tok jwtSecret now with
  | .error e => .abort 401 (classifyTokenError e)
  | .ok claims => .proceed claims.userID claims.email claims.role

/-- A context value as read back out of gin's request context by
`RequireRole`: the string put there by AuthMiddleware, or something that is
not a string. -/
inductive CtxVal where
  | str (s : String)
  | nonString
deriving DecidableEq

/-- Outcome of a role guard: proceed, or abort with an HTTP status and
message (response.Forbidden always carries status 403). -/
inductive GuardOutcome where
  | proceed
  | forbidden (status : Nat) (msg : String)
deriving DecidableEq

/-- `joinRoles` (src/internal/user/authorization.go, lines 56-65). -/
def joinRoles (roles : List String) : String :=
  match roles with
  | [] => ""
  | r :: rest => rest.foldl (fun acc x => acc ++ ", " ++ x) r

/-- `RequireRole` (src/internal/user/authorization.go, lines 9-43): the
request proceeds only when the context holds a string role literally equal
to one of the allowed roles; everything else is a 403. -/
def requireRole (allowedRoles : List String) (ctxRole : Option CtxVal) :
    GuardOutcome :=
  match ctxRole with
  | none => .forbidden 403 "User role not found in context"
  | some .nonString => .forbidden 403 "Invalid user role type"
  | some (.str role) =>
    if allowedRoles.contains role then .proceed
    else .forbidden 403
      ("Insufficient permissions. Required roles: " ++ joinRoles allowedRoles)

/-- `RequireAdmin` (src/internal/user/authorization.go, lines 46-48). -/
def requireAdmin : Option CtxVal → GuardOutcome := requireRole [RoleAdmin]

/-- Outcome of the Login handler. -/
inductive LoginOutcome where
  | validationError (msg : String)
  | invalidAuth (msg : String)
  | forbiddenStatus (msg : String)
  | internalError (msg : String)
  | success (token : SignedToken) (user : User)
deriving DecidableEq

/-- HTTP status carried by each Login outcome, per
src/internal/response/response.go and src/unnamed/part_020. -/
def loginHttpStatus : LoginOutcome → Nat
  | .validationError _ => 400
  | .invalidAuth _ => 401
  | .forbiddenStatus _ => 403
  | .internalError _ => 500
  | .success _ _ => 200

/-- `(*Handler).Login` (src/unnamed/part_020, lines 63-113) after request
binding: the status gate (Disabled, then anything not Active) runs before
the password check; only an Active user with the right password gets a
token.  `users` stands for the repository contents behind GetByEmail. -/
def login (users : List User) (email password : String) (jwtSecret : String)
    (now tokenExpiry : Int) : LoginOutcome :=
  match getByEmail users email with
  | none => .invalidAuth "Invalid email or password"
  | some user =>
    if user.status = UserStatus.disabled then
      .forbiddenStatus "Your account has been disabled. Please contact support."
    else if user.status ≠ UserStatus.active then
      .forbiddenStatus "Please verify your email address before logging in. Check your email for the verification link."
    else if ¬ checkPassword user.password password then
      .invalidAuth "Invalid email or password"
    else
      .success (generateToken user jwtSecret now tokenExpiry)
        { user with password := "" }

/-- Outcome of the VerifyEmail handler. -/
inductive VerifyOutcome where
  | badRequest (msg : String)
  | notFound (msg : String)
  | alreadyVerified (email : String)
  | internalError (msg : String)
  | verified (u : User)
deriving DecidableEq

/-- `(*Handler).VerifyEmailHandler` (src/internal/user/handler.go, lines
142-179): a non-empty token is looked up; an already-active user short
circuits; otherwise the user's status flips to Active, the one-time token
is cleared and the store updated.  Returns the possibly-updated store with
the outcome (the response copy has password and token blanked). -/
def verifyEmail (users : List User) (token : String) :
    List User × VerifyOutcome :=
  if token = "" then (users, .badRequest "Verification token is required")
  else
    match getByVerificationToken users token with
    | none => (users, .notFound "Invalid or expired verification token")
    | some user =>
      if user.status = UserStatus.active then
        (users, .alreadyVerified user.email)
      else
        let updated :=
          { user with status := UserStatus.active, emailVerificationToken := "" }
        match updateUser users user.id updated with
        | .error e => (users, .internalError e)
        | .ok users2 => (users2, .verified { updated with password := "" })

/-- The user record as rewritten by a successful email verification
(src/internal/user/handler.go, lines 164-166): status Active, one-time
token cleared. -/
def verifiedUser (u : User) : User :=
  { u with status := UserStatus.active, emailVerificationToken := "" }

/-- Concrete user fixture for exercising the verification flow. -/
def aliceW : User :=
  ⟨"1", "alice@example.com", hashPassword "secret1", "User",
    UserStatus.pending, "tok123"⟩

/-! ## Theorems -/

theorem digitsVal_cons (d : Nat) (ds : List Nat) :
    digitsVal (d :: ds) = d + 10 * digitsVal ds := rfl

theorem decDigitsAux_val (fuel n : Nat) (h : n ≤ fuel) :
    digitsVal (decDigitsAux fuel n) = n := by
  induction fuel generalizing n with
  | zero =>
    interval_cases n
    rfl
  | succ fuel ih =>
    cases n with
    | zero => rfl
    | succ m =>
      have hdiv : (m + 1) / 10 ≤ fuel := by
        have : (m + 1) / 10 < m + 1 := Nat.div_lt_self (Nat.succ_pos m) (by omega)
        omega
      rw [decDigitsAux, digitsVal_cons, ih _ hdiv]
      omega

theorem digitsVal_decDigits (n : Nat) : digitsVal (decDigits n) = n :=
  decDigitsAux_val n n (Nat.le_refl n)

/-- Every digit produced by `decDigitsAux` is below 10. -/
theorem decDigitsAux_lt (fuel n : Nat) : ∀ d ∈ decDigitsAux fuel n, d < 10 := by
  induction fuel generalizing n with
  | zero => intro d hd; simp [decDigitsAux] at hd
  | succ fuel ih =>
    cases n with
    | zero => intro d hd; simp [decDigitsAux] at hd
    | succ m =>
      intro d hd
      rw [decDigitsAux] at hd
      rcases List.mem_cons.mp hd with h | h
      · subst h; exact Nat.mod_lt _ (by omega)
      · exact ih _ d h

theorem chDigit_digitCh (d : Nat) (h : d < 10) : chDigit (digitCh d) = d := by
  interval_cases d <;> rfl

theorem natParse_natStr (n : Nat) : natParse (natStr n) = n := by
  by_cases h : n = 0
  · subst h; rfl
  · unfold natStr natParse
    rw [if_neg h, List.reverse_reverse, List.map_map]
    have : ((decDigits n).map (chDigit ∘ digitCh)) = decDigits n := by
      conv_rhs => rw [show decDigits n = (decDigits n).map id from (List.map_id _).symm]
      apply List.map_congr_left
      intro d hd
      exact chDigit_digitCh d (decDigitsAux_lt n n d hd)
    rw [this, digitsVal_decDigits]

theorem natStr_injective : Function.Injective natStr := by
  intro a b hab
  have := natParse_natStr a
  rw [hab, natParse_natStr] at this
  omega

theorem data_mk (l : List Char) : (String.mk l).data = l := rfl

theorem slugCandidate_inj (base : String) {a b : Nat}
    (h : slugCandidate base a = slugCandidate base b) : a = b := by
  apply natStr_injective
  have hd := congrArg String.data h
  simp only [slugCandidate, String.data_append, data_mk, List.append_assoc] at hd
  have h2 := List.append_cancel_left hd
  have h3 := List.append_cancel_left h2
  exact h3

theorem slugLoop_eq_none (existing : List String) (base : String) :
    ∀ fuel i, slugLoop existing base i fuel = none →
      ∀ k, i ≤ k → k < i + fuel → slugCandidate base k ∈ existing := by
  intro fuel
  induction fuel with
  | zero => intro i _ k hik hk; omega
  | succ fuel ih =>
    intro i hnone k hik hk
    rw [slugLoop] at hnone
    by_cases hmem : slugCandidate base i ∈ existing
    · rw [if_pos hmem] at hnone
      rcases Nat.eq_or_lt_of_le hik with h | h
      · subst h; exact hmem
      · exact ih (i + 1) hnone k h (by omega)
    · rw [if_neg hmem] at hnone
      exact absurd hnone (by simp)

theorem slugLoop_isSome (existing : List String) (base : String)
    (fuel i : Nat) (hfuel : existing.length < fuel) :
    (slugLoop existing base i fuel).isSome := by
  rw [Option.isSome_iff_ne_none]
  intro hnone
  have hall := slugLoop_eq_none existing base fuel i hnone
  have hsub : (Finset.range fuel).image (fun j => slugCandidate base (i + j)) ⊆
      existing.toFinset := by
    intro s hs
    rcases Finset.mem_image.mp hs with ⟨j, hj, rfl⟩
    exact List.mem_toFinset.mpr
      (hall (i + j) (by omega) (by have := Finset.mem_range.mp hj; omega))
  have hinj : Function.Injective (fun j => slugCandidate base (i + j)) := by
    intro a b hab
    have := slugCandidate_inj base hab
    omega
  have hcard : ((Finset.range fuel).image
      (fun j => slugCandidate base (i + j))).card = fuel := by
    rw [Finset.card_image_of_injective _ hinj, Finset.card_range]
  have h1 := Finset.card_le_card hsub
  have h2 := existing.toFinset_card_le
  omega

theorem slugLoop_spec (existing : List String) (base : String) :
    ∀ fuel i r, slugLoop existing base i fuel = some r →
      ∃ N, i ≤ N ∧ r = slugCandidate base N ∧ slugCandidate base N ∉ existing ∧
        ∀ k, i ≤ k → k < N → slugCandidate base k ∈ existing := by
  intro fuel
  induction fuel with
  | zero => intro i r h; exact absurd h (by simp [slugLoop])
  | succ fuel ih =>
    intro i r h
    rw [slugLoop] at h
    by_cases hmem : slugCandidate base i ∈ existing
    · rw [if_pos hmem] at h
      rcases ih (i + 1) r h with ⟨N, hN, hr, hfree, hprev⟩
      refine ⟨N, by omega, hr, hfree, ?_⟩
      intro k hik hkN
      rcases Nat.eq_or_lt_of_le hik with hek | hlt
      · subst hek; exact hmem
      · exact hprev k hlt hkN
    · rw [if_neg hmem] at h
      refine ⟨i, Nat.le_refl i, (Option.some.injEq _ _ ▸ h).symm, hmem, ?_⟩
      intro k hik hkN; omega

/-- Core property of `ensureUniqueSlug` on a collision: the result is
`base-N` for the least `N ≥ 1` whose candidate is not among the existing
slugs. -/
theorem ensureUniqueSlug_collision (defaultSlug : String)
    (existing : List String) (base : String)
    (h0 : base ≠ "") (hc : base ∈ existing) :
    ∃ N, 1 ≤ N ∧
      ensureUniqueSlug defaultSlug existing base = slugCandidate base N ∧
      slugCandidate base N ∉ existing ∧
      ∀ k, 1 ≤ k → k < N → slugCandidate base k ∈ existing := by
  unfold ensureUniqueSlug
  rw [if_neg h0]
  rw [if_pos hc]
  have hsome := slugLoop_isSome existing base (existing.length + 1) 1
    (Nat.lt_succ_self _)
  rcases Option.isSome_iff_exists.mp hsome with ⟨r, hr⟩
  rw [hr]
  rcases slugLoop_spec existing base (existing.length + 1) 1 r hr with
    ⟨N, hN, hrc, hfree, hprev⟩
  exact ⟨N, hN, by rw [Option.getD_some, hrc], hfree, hprev⟩

/-- On a non-colliding, non-empty base slug `ensureUniqueSlug` is the
identity. -/
theorem ensureUniqueSlug_free (defaultSlug : String) (existing : List String)
    (base : String) (h0 : base ≠ "") (hc : base ∉ existing) :
    ensureUniqueSlug defaultSlug existing base = base := by
  unfold ensureUniqueSlug
  rw [if_neg h0, if_neg hc]

theorem slugMake_eq_empty_iff (s : String) : slugMake s = "" ↔ s = "" := by
  cases s with
  | mk data =>
    cases data with
    | nil => simp [slugMake]
    | cons c cs =>
      constructor
      · intro h
        exact absurd (congrArg String.data h) (by simp [slugMake])
      · intro h
        exact absurd (congrArg String.data h) (by simp)

/-- C1: an entity created with a desired (already URL-safe) slug `S` that
collides with an existing entity's slug receives slug `S-N`, where `N` is
the smallest positive integer whose candidate `S-N` is absent from the
slugs returned by the repository's List(). -/
theorem c1_collision_minimal_suffix (existing : List JobType)
    (payload : JobTypePayload) (S : String)
    (hS : payload.slug = S) (hne : S ≠ "") (hnorm : slugMake S = S)
    (hcoll : S ∈ existing.map JobType.slug) :
    ∃ N, 1 ≤ N ∧
      (createJobType existing payload).slug = slugCandidate S N ∧
      slugCandidate S N ∉ existing.map JobType.slug ∧
      ∀ k, 1 ≤ k → k < N → slugCandidate S k ∈ existing.map JobType.slug := by
  subst hS
  unfold createJobType
  simp only
  rw [if_pos hne, hnorm]
  exact ensureUniqueSlug_collision "job-type" (existing.map JobType.slug)
    payload.slug hne hcoll

/-- Witness for C1 at a concrete input: with existing slugs
`[a, a-1, a-3]`, creating with desired slug `a` yields `a-2`. -/
theorem c1_collision_minimal_suffix_witness :
    (⟨"A", "a"⟩ : JobTypePayload).slug = "a" ∧ ("a" : String) ≠ "" ∧
      slugMake "a" = "a" ∧
      "a" ∈ ([⟨"1", "P", "a"⟩, ⟨"2", "Q", "a-1"⟩,
        ⟨"3", "R", "a-3"⟩] : List JobType).map JobType.slug ∧
      (∃ N, 1 ≤ N ∧
        (createJobType [⟨"1", "P", "a"⟩, ⟨"2", "Q", "a-1"⟩, ⟨"3", "R", "a-3"⟩]
          ⟨"A", "a"⟩).slug = slugCandidate "a" N ∧
        slugCandidate "a" N ∉
          ([⟨"1", "P", "a"⟩, ⟨"2", "Q", "a-1"⟩,
            ⟨"3", "R", "a-3"⟩] : List JobType).map JobType.slug ∧
        ∀ k, 1 ≤ k → k < N → slugCandidate "a" k ∈
          ([⟨"1", "P", "a"⟩, ⟨"2", "Q", "a-1"⟩,
            ⟨"3", "R", "a-3"⟩] : List JobType).map JobType.slug) :=
  ⟨rfl, by decide, by decide, by decide,
    c1_collision_minimal_suffix _ _ "a" rfl (by decide) (by decide) (by decide)⟩

/-- C2 counterexample: a job type created with the explicit slug
`My Slug` — colliding with nothing, the repository being empty — receives
slug `my-slug`, not `My Slug`: the handler normalizes explicit slugs before
use, contrary to the claim that the slug is taken unchanged. -/
theorem c2_counterexample_jobtype_normalizes :
    (createJobType [] ⟨"Cleaning", "My Slug"⟩).slug ≠ "My Slug" ∧
      (createJobType [] ⟨"Cleaning", "My Slug"⟩).slug = "my-slug" := by
  constructor
  · decide
  · decide

/-- C2 (amended): for locations the cited handler uses an explicit slug
unchanged; for job types an explicit slug is first normalized with
slug.Make, and when the normalized slug collides with no existing slug it
is used without any suffix — so the created slug equals `S` exactly when
`S` is already in normalized form. -/
theorem c2_amended_explicit_slug (payload : LocationPayload)
    (existing : List JobType) (jp : JobTypePayload)
    (hloc : payload.slug ≠ "")
    (hjp : jp.slug ≠ "")
    (hfree : slugMake jp.slug ∉ existing.map JobType.slug) :
    (∀ loc, createLocation payload = .ok loc → loc.slug = payload.slug) ∧
      (createJobType existing jp).slug = slugMake jp.slug := by
  constructor
  · intro loc hok
    unfold createLocation at hok
    rw [if_neg hloc] at hok
    by_cases hst : payload.status = ""
    · rw [if_pos hst] at hok
      cases hok
      rfl
    · rw [if_neg hst] at hok
      by_cases hv : statusIsValid payload.status
      · rw [if_pos (by simp [hv])] at hok
        cases hok
        rfl
      · rw [if_neg (by simp [hv])] at hok
        cases hok
  · unfold createJobType
    simp only
    rw [if_pos hjp]
    exact ensureUniqueSlug_free "job-type" (existing.map JobType.slug)
      (slugMake jp.slug) (fun h => hjp ((slugMake_eq_empty_iff jp.slug).mp h))
      hfree

/-- Witness for C2's amended claim at concrete inputs: a location created
with explicit slug `S-1` keeps it verbatim, and a job type created with the
already-normalized explicit slug `cleaning` (no collision) keeps it too. -/
theorem c2_amended_explicit_slug_witness :
    (⟨"Main Library", "S-1", ""⟩ : LocationPayload).slug ≠ "" ∧
      (⟨"Cleaning", "cleaning"⟩ : JobTypePayload).slug ≠ "" ∧
      slugMake "cleaning" ∉ ([] : List JobType).map JobType.slug ∧
      ((∀ loc, createLocation ⟨"Main Library", "S-1", ""⟩ = .ok loc →
          loc.slug = "S-1") ∧
        (createJobType [] ⟨"Cleaning", "cleaning"⟩).slug =
          slugMake "cleaning") :=
  ⟨by decide, by decide, by decide,
    c2_amended_explicit_slug ⟨"Main Library", "S-1", ""⟩ [] ⟨"Cleaning", "cleaning"⟩
      (by decide) (by decide) (by decide)⟩

/-- C3 counterexample: with a non-empty wrapped fallback store, the
mirroring repository's List() under a transport error returns the fallback
contents, not the empty collection the claim requires. -/
theorem c3_counterexample_mirrored_list_not_empty :
    mirroredList (.error "connection refused")
        [⟨"1", "Main Library", "main-library", "Active"⟩] =
      [⟨"1", "Main Library", "main-library", "Active"⟩] ∧
    mirroredList (.error "connection refused")
        [⟨"1", "Main Library", "main-library", "Active"⟩] ≠ [] := by
  constructor
  · rfl
  · decide

/-- C3 (amended): neither List() variant propagates a transport error to
the caller; the remote-only repository degrades to the empty collection,
while the fallback-mirroring repository degrades to the wrapped local
store's List(). -/
theorem c3_amended_list_error_degrades (e : String)
    (localList : List Location) :
    remoteOnlyList (.error e) = [] ∧
      mirroredList (.error e) localList = localList :=
  ⟨rfl, rfl⟩

/-- C10: when the remote list call succeeds but maps to zero records, the
mirroring repository's List() silently returns the wrapped local fallback
store's contents in place of the empty remote result. -/
theorem c10_empty_remote_replaced_by_local (records : List ARecord)
    (localList : List Location)
    (h : records.filterMap (fun r => (mapAirtableRecord r).toOption) = []) :
    mirroredList (.ok records) localList = localList := by
  unfold mirroredList
  simp only [h]
  rfl

/-- Witness for C10: a successful remote call with no records at all falls
back to the demo data in the local store. -/
theorem c10_empty_remote_replaced_by_local_witness :
    ([] : List ARecord).filterMap (fun r => (mapAirtableRecord r).toOption) = []
      ∧ mirroredList (.ok []) [⟨"1", "West Branch", "west-branch", "Active"⟩] =
        [⟨"1", "West Branch", "west-branch", "Active"⟩] :=
  ⟨rfl, c10_empty_remote_replaced_by_local [] _ rfl⟩

/-- C7 counterexample: the users' In-Memory Fallback Store `Create` does
perform a duplicate check — creating a user whose email matches an existing
one returns an error instead of always succeeding. -/
theorem c7_counterexample_user_duplicate_email :
    userInMemCreate
        ⟨[("1", ⟨"1", "a@b.c", "h", "User", .active, ""⟩)], 2⟩
        ⟨"", "a@b.c", "h2", "User", .pending, "t"⟩ =
      .error "user with email a@b.c already exists" := by
  rfl

/-- C7 (amended): the locations' in-memory Create always succeeds, assigning
`id = nextID`, incrementing the counter and inserting, with no duplicate
check; the users' in-memory Create first rejects a duplicate email with an
error, and only otherwise assigns `id = nextID`, increments and inserts. -/
theorem c7_amended_in_memory_create (stL : LocInMemState) (l : Location)
    (stU : UserInMemState) (u : User) :
    ((locInMemCreate stL l).2 = { l with id := String.mk (natStr stL.nextID) } ∧
      (locInMemCreate stL l).1.nextID = stL.nextID + 1 ∧
      (locInMemCreate stL l).1.data =
        stL.data ++ [((locInMemCreate stL l).2.id, (locInMemCreate stL l).2)]) ∧
    (stU.data.any (fun kv => kv.2.email == u.email) = false →
      userInMemCreate stU u =
        .ok (⟨stU.data ++ [(String.mk (natStr stU.nextID),
              { u with id := String.mk (natStr stU.nextID) })],
            stU.nextID + 1⟩,
          { u with id := String.mk (natStr stU.nextID) })) ∧
    (stU.data.any (fun kv => kv.2.email == u.email) = true →
      userInMemCreate stU u =
        .error ("user with email " ++ u.email ++ " already exists")) := by
  refine ⟨⟨rfl, rfl, rfl⟩, ?_, ?_⟩
  · intro h
    unfold userInMemCreate
    rw [h]
    rfl
  · intro h
    unfold userInMemCreate
    rw [h]
    rfl

/-- Witness for C7's amended claim: a fresh location gets id 1 on the empty
store; a fresh user is accepted on an empty store and a duplicate email is
rejected on a store holding it. -/
theorem c7_amended_in_memory_create_witness :
    ((locInMemCreate ⟨[], 1⟩ ⟨"", "L", "l", "Active"⟩).2 =
        { (⟨"", "L", "l", "Active"⟩ : Location) with id := String.mk (natStr 1) } ∧
      (locInMemCreate ⟨[], 1⟩ ⟨"", "L", "l", "Active"⟩).1.nextID = 1 + 1 ∧
      (locInMemCreate ⟨[], 1⟩ ⟨"", "L", "l", "Active"⟩).1.data =
        [] ++ [((locInMemCreate ⟨[], 1⟩ ⟨"", "L", "l", "Active"⟩).2.id,
          (locInMemCreate ⟨[], 1⟩ ⟨"", "L", "l", "Active"⟩).2)]) ∧
    (([] : List (String × User)).any
        (fun kv => kv.2.email == ("a@b.c" : String)) = false →
      userInMemCreate ⟨[], 1⟩ ⟨"", "a@b.c", "h", "User", .pending, "t"⟩ =
        .ok (⟨[] ++ [(String.mk (natStr 1),
              { (⟨"", "a@b.c", "h", "User", .pending, "t"⟩ : User) with
                id := String.mk (natStr 1) })], 1 + 1⟩,
          { (⟨"", "a@b.c", "h", "User", .pending, "t"⟩ : User) with
            id := String.mk (natStr 1) })) ∧
    (([("1", ⟨"1", "a@b.c", "h", "User", .active, ""⟩)] :
          List (String × User)).any
        (fun kv => kv.2.email == ("a@b.c" : String)) = true →
      userInMemCreate ⟨[("1", ⟨"1", "a@b.c", "h", "User", .active, ""⟩)], 2⟩
          ⟨"", "a@b.c", "h", "User", .pending, "t"⟩ =
        .error ("user with email " ++ "a@b.c" ++ " already exists")) :=
  ⟨(c7_amended_in_memory_create ⟨[], 1⟩ ⟨"", "L", "l", "Active"⟩ ⟨[], 1⟩
      ⟨"", "a@b.c", "h", "User", .pending, "t"⟩).1,
    (c7_amended_in_memory_create ⟨[], 1⟩ ⟨"", "L", "l", "Active"⟩ ⟨[], 1⟩
      ⟨"", "a@b.c", "h", "User", .pending, "t"⟩).2.1,
    (c7_amended_in_memory_create ⟨[], 1⟩ ⟨"", "L", "l", "Active"⟩
      ⟨[("1", ⟨"1", "a@b.c", "h", "User", .active, ""⟩)], 2⟩
      ⟨"", "a@b.c", "h", "User", .pending, "t"⟩).2.2⟩

/-- C8: when the local write of the fallback-then-mirror Create succeeds and
the remote write fails, the operation returns the locally created entity
with a nil error and keeps the local write — for locations unconditionally,
for users whenever the local duplicate-email scan passed. -/
theorem c8_local_write_wins (stL : LocInMemState) (l : Location)
    (stU : UserInMemState) (u : User) (e1 e2 : String)
    (st2 : UserInMemState) (created : User)
    (hlocal : userInMemCreate stU u = .ok (st2, created)) :
    locMirroredCreate stL l (.error e1) =
      ((locInMemCreate stL l).1, .ok (locInMemCreate stL l).2) ∧
    userMirroredCreate stU u (.error e2) = (st2, .ok created) := by
  constructor
  · rfl
  · unfold userMirroredCreate
    rw [hlocal]

/-- Witness for C8: creating a fresh user while the remote transport is down
returns the locally created user with a nil error and the local store keeps
the write. -/
theorem c8_local_write_wins_witness :
    userInMemCreate ⟨[], 1⟩ ⟨"", "a@b.c", "h", "User", .pending, "t"⟩ =
      .ok (⟨[("1", ⟨"1", "a@b.c", "h", "User", .pending, "t"⟩)], 2⟩,
        ⟨"1", "a@b.c", "h", "User", .pending, "t"⟩) ∧
    (locMirroredCreate ⟨[], 1⟩ ⟨"", "L", "l", "Active"⟩ (.error "down") =
      ((locInMemCreate ⟨[], 1⟩ ⟨"", "L", "l", "Active"⟩).1,
        .ok (locInMemCreate ⟨[], 1⟩ ⟨"", "L", "l", "Active"⟩).2) ∧
    userMirroredCreate ⟨[], 1⟩ ⟨"", "a@b.c", "h", "User", .pending, "t"⟩
        (.error "down") =
      (⟨[("1", ⟨"1", "a@b.c", "h", "User", .pending, "t"⟩)], 2⟩,
        .ok ⟨"1", "a@b.c", "h", "User", .pending, "t"⟩)) :=
  ⟨by rfl,
    c8_local_write_wins ⟨[], 1⟩ ⟨"", "L", "l", "Active"⟩ ⟨[], 1⟩
      ⟨"", "a@b.c", "h", "User", .pending, "t"⟩ "down" "down"
      ⟨[("1", ⟨"1", "a@b.c", "h", "User", .pending, "t"⟩)], 2⟩
      ⟨"1", "a@b.c", "h", "User", .pending, "t"⟩ (by rfl)⟩

theorem statusIsValid_iff (s : String) :
    statusIsValid s = true ↔ s = "Active" ∨ s = "Disabled" := by
  unfold statusIsValid StatusActive StatusDisabled
  simp [Bool.or_eq_true, beq_iff_eq]

/-- C9: the read mapping applied to the write mapping's output reproduces
every field of the location except the remotely-assigned id — the record id
supplied on the read side is taken instead — for every location whose
status is a valid domain value. -/
theorem c9_field_mapping_roundtrip (l : Location) (rid : String)
    (h : statusIsValid l.status = true) :
    fromAirtable [("id", .str rid), ("fields", .fieldsObj (toAirtableFields l))] =
      .ok { id := rid, name := l.name, slug := l.slug, status := l.status } := by
  obtain ⟨lid, lname, lslug, lstatus⟩ := l
  rcases (statusIsValid_iff lstatus).mp h with h2 | h2 <;> subst h2 <;> rfl

/-- Witness for C9 at a concrete location. -/
theorem c9_field_mapping_roundtrip_witness :
    statusIsValid ("Disabled" : String) = true ∧
      fromAirtable [("id", .str "rec42"),
          ("fields", .fieldsObj (toAirtableFields
            ⟨"7", "Main Library", "main-library", "Disabled"⟩))] =
        .ok ⟨"rec42", "Main Library", "main-library", "Disabled"⟩ :=
  ⟨by decide, c9_field_mapping_roundtrip
    ⟨"7", "Main Library", "main-library", "Disabled"⟩ "rec42" (by decide)⟩

/-- C6: a request passes `RequireRole(allowed...)` exactly when the
context's injected role string is literally one of the allowed roles; the
matching is not hierarchical, so a Super Admin is rejected with 403 both by
`RequireRole(Admin)` and by `RequireAdmin()`. -/
theorem c6_exact_role_matching :
    (∀ (allowedRoles : List String) (role : String),
      requireRole allowedRoles (some (.str role)) = .proceed ↔
        role ∈ allowedRoles) ∧
    requireRole [RoleAdmin] (some (.str RoleSuperAdmin)) =
      .forbidden 403 "Insufficient permissions. Required roles: Admin" ∧
    requireAdmin (some (.str RoleSuperAdmin)) =
      .forbidden 403 "Insufficient permissions. Required roles: Admin" := by
  refine ⟨?_, by rfl, by rfl⟩
  intro allowedRoles role
  unfold requireRole
  by_cases hmem : role ∈ allowedRoles
  · have hc : allowedRoles.contains role = true := by
      simp [List.contains, List.elem_eq_mem, hmem]
    simp [hc, hmem]
  · have hc : allowedRoles.contains role = false := by
      simp [List.contains, List.elem_eq_mem, hmem]
    simp [hc, hmem]

/-- C5: a token signed under secret K1 is rejected under a different secret
K2 with the INVALID_TOKEN error code, and a token whose expiry lies in the
past is rejected under the correct secret with the EXPIRED_TOKEN error
code, both as 401 aborts of the middleware. -/
theorem c5_token_error_codes (u : User) (K1 K2 : String) (now ttl now2 : Int)
    (hK : K1 ≠ K2) (hexp : now + ttl < now2) :
    authMiddleware (generateToken u K1 now ttl) K2 now2 =
      .abort 401 ErrCodeInvalidToken ∧
    authMiddleware (generateToken u K1 now ttl) K1 now2 =
      .abort 401 ErrCodeExpiredToken := by
  constructor
  · have h1 : validateToken (generateToken u K1 now ttl) K2 now2 =
        .error "token signature is invalid: signature is invalid" := by
      simp [validateToken, generateToken, hK]
    unfold authMiddleware
    rw [h1]
    rfl
  · have h2 : validateToken (generateToken u K1 now ttl) K1 now2 =
        .error "token has invalid claims: token is expired" := by
      simp [validateToken, generateToken, hexp]
    unfold authMiddleware
    rw [h2]
    rfl

/-- Witness for C5 at concrete secrets and times. -/
theorem c5_token_error_codes_witness :
    ("k1" : String) ≠ "k2" ∧ (0 : Int) + 10 < 11 ∧
    (authMiddleware
        (generateToken ⟨"1", "a@b.c", "h", "User", .active, ""⟩ "k1" 0 10)
        "k2" 11 = .abort 401 ErrCodeInvalidToken ∧
      authMiddleware
        (generateToken ⟨"1", "a@b.c", "h", "User", .active, ""⟩ "k1" 0 10)
        "k1" 11 = .abort 401 ErrCodeExpiredToken) :=
  ⟨by decide, by decide,
    c5_token_error_codes ⟨"1", "a@b.c", "h", "User", .active, ""⟩ "k1" "k2"
      0 10 11 (by decide) (by decide)⟩

theorem getByEmail_after_update (users : List User) (u upd : User) (e : String)
    (hfind : users.find? (fun v => v.email == e) = some u)
    (hupd : upd.email = u.email) :
    (users.map (fun v => if v.id == u.id then upd else v)).find?
      (fun v => v.email == e) = some upd := by
  induction users with
  | nil => simp at hfind
  | cons x xs ih =>
    have hue : (u.email == e) = true := by
      by_cases hx : (x.email == e) = true
      · have hxu : x = u := by simpa [List.find?_cons, hx] using hfind
        rw [← hxu]; exact hx
      · have hxs : xs.find? (fun v => v.email == e) = some u := by
          simpa [List.find?_cons, hx] using hfind
        have h5 := List.find?_some hxs
        simpa using h5
    have hupe : (upd.email == e) = true := by rw [hupd]; exact hue
    rw [List.map_cons]
    by_cases hx : (x.email == e) = true
    · have hxu : x = u := by simpa [List.find?_cons, hx] using hfind
      subst hxu
      rw [if_pos (beq_self_eq_true x.id)]
      simp only [List.find?_cons, hupe]
    · have hxs : xs.find? (fun v => v.email == e) = some u := by
        simpa [List.find?_cons, hx] using hfind
      by_cases hid : (x.id == u.id) = true
      · rw [if_pos hid]
        simp only [List.find?_cons, hupe]
      · rw [if_neg hid]
        have hx2 : (x.email == e) = false := by simpa using hx
        simp only [List.find?_cons, hx2]
        exact ih hxs

/-- C4: a Pending user's login with the correct password is rejected with a
403 Forbidden-class error; after the verify-email operation with that
user's one-time token succeeds, the same credentials log in
successfully. -/
theorem c4_pending_blocks_login_until_verified (users : List User) (u : User)
    (p t jwtSecret : String) (now ttl : Int)
    (hemail : getByEmail users u.email = some u)
    (hstatus : u.status = UserStatus.pending)
    (hpw : checkPassword u.password p = true)
    (ht : t ≠ "")
    (htok : getByVerificationToken users t = some u) :
    loginHttpStatus (login users u.email p jwtSecret now ttl) = 403 ∧
    (∃ users2 resp, verifyEmail users t = (users2, .verified resp) ∧
      ∃ tok usr, login users2 u.email p jwtSecret now ttl =
        .success tok usr) := by
  have hnd : ¬(u.status = UserStatus.disabled) := by
    rw [hstatus]; exact fun hc => UserStatus.noConfusion hc
  have hna : ¬(u.status = UserStatus.active) := by
    rw [hstatus]; exact fun hc => UserStatus.noConfusion hc
  have hlogin : login users u.email p jwtSecret now ttl =
      .forbiddenStatus "Please verify your email address before logging in. Check your email for the verification link." := by
    unfold login
    simp only [hemail]
    rw [if_neg hnd, if_pos hna]
  refine ⟨by rw [hlogin]; rfl, ?_⟩
  have humem : u ∈ users := List.mem_of_find?_eq_some htok
  have hany : users.any (fun v => v.id == u.id) = true :=
    List.any_eq_true.mpr ⟨u, humem, beq_self_eq_true u.id⟩
  have hverify : verifyEmail users t =
      (users.map (fun v => if v.id == u.id then verifiedUser u else v),
        .verified { verifiedUser u with password := "" }) := by
    unfold verifyEmail
    rw [if_neg ht]
    simp only [htok]
    rw [if_neg hna]
    simp only [verifiedUser, updateUser, hany, if_true]
  refine ⟨_, _, hverify, ?_⟩
  have hfind2 := getByEmail_after_update users u (verifiedUser u)
    u.email hemail rfl
  have hlogin2 : login
      (users.map (fun v => if v.id == u.id then verifiedUser u else v))
      u.email p jwtSecret now ttl =
      .success (generateToken (verifiedUser u) jwtSecret now ttl)
        { verifiedUser u with password := "" } := by
    unfold login
    unfold getByEmail at hfind2
    simp only [getByEmail, hfind2]
    rw [if_neg (fun hc => UserStatus.noConfusion
      ((show (verifiedUser u).status = UserStatus.active from rfl) ▸ hc))]
    rw [if_neg (fun hc => hc rfl)]
    rw [if_neg (fun hc => hc hpw)]
  exact ⟨_, _, hlogin2⟩

/-- Witness for C4: the scenario of the spec at concrete values —
register alice, login blocked with 403, verify with the correct token,
login succeeds. -/
theorem c4_pending_blocks_login_until_verified_witness :
    getByEmail [aliceW] aliceW.email = some aliceW ∧
    aliceW.status = UserStatus.pending ∧
    checkPassword aliceW.password "secret1" = true ∧
    ("tok123" : String) ≠ "" ∧
    getByVerificationToken [aliceW] "tok123" = some aliceW ∧
    (loginHttpStatus (login [aliceW] aliceW.email "secret1" "jwt" 0 3600) =
        403 ∧
      (∃ users2 resp, verifyEmail [aliceW] "tok123" = (users2, .verified resp) ∧
        ∃ tok usr, login users2 aliceW.email "secret1" "jwt" 0 3600 =
          .success tok usr)) :=
  ⟨rfl, rfl, by rfl, by decide, rfl,
    c4_pending_blocks_login_until_verified [aliceW] aliceW "secret1" "tok123"
      "jwt" 0 3600 rfl rfl (by rfl) (by decide) rfl⟩

end LamPhuong
